import Mathlib

/-!
# Verification of the TradingView → MEXC webhook bot

A shallow embedding of `app.py` (class `MEXCTrader`, the lazily initialized
global trader, and the Flask route handlers `webhook` and `test_trade`),
together with theorems settling the specification claims about it.

Modelling conventions:
* Python dicts of string keys/values are association lists in insertion
  order with unique keys; `dict_set` is dict item assignment (update in
  place if the key exists, else append), which is how `params['k'] = v`
  behaves and which also models the in-place mutation seen by the caller.
* `hmac.new(secret, msg, sha256).hexdigest()` is an abstract keyed digest
  `hmac : String → String → String` (key, message ↦ lowercase hex digest);
  it is a parameter of every definition that signs, so theorems that hold
  for every `hmac` pin down exactly the string that is digested.
* The network is a function `net : HttpRequest → HttpOutcome`; the embedding
  records the list of outbound requests actually dispatched.
* `time.time()*1000` is a `ts : Nat` parameter supplied per request.
* Python string comparison (used by `sorted(params.items())`) is
  lexicographic by code point; `lexLtB` implements it on `String.data`.
-/

/-- JSON values, as returned by `response.json()`. -/
inductive Json where
  | null : Json
  | bool : Bool → Json
  | num : Int → Json
  | str : String → Json
  | arr : List Json → Json
  | obj : List (String × Json) → Json

/-- Python truthiness of a parsed JSON value (`if result:`):
`None`, `False`, `0`, `""`, `[]`, `{}` are falsy. -/
def Json.truthy : Json → Bool
  | .null => false
  | .bool b => b
  | .num n => n != 0
  | .str s => s != ""
  | .arr xs => !xs.isEmpty
  | .obj fs => !fs.isEmpty

/-- Python truthiness of an optional JSON value (`None` is falsy). -/
def pyTruthy : Option Json → Bool
  | none => false
  | some j => j.truthy

/-- Lexicographic (code-point) strict comparison of char lists: Python's
`<` on strings, used by `sorted`. -/
def lexLtB : List Char → List Char → Bool
  | _, [] => false
  | [], _ :: _ => true
  | a :: as, b :: bs =>
    if a.toNat < b.toNat then true
    else if b.toNat < a.toNat then false
    else lexLtB as bs

/-- Python's tuple comparison `(k1, v1) < (k2, v2)` restricted to a
non-strict total order, as used by `sorted(params.items())`: compare keys
first, break ties by value. -/
def pair_le (p q : String × String) : Prop :=
  lexLtB p.1.data q.1.data = true ∨ (p.1 = q.1 ∧ lexLtB q.2.data p.2.data = false)

instance pair_le_dec : DecidableRel pair_le := fun p q =>
  if h : lexLtB p.1.data q.1.data = true ∨ (p.1 = q.1 ∧ lexLtB q.2.data p.2.data = false)
  then Decidable.isTrue h else Decidable.isFalse h

/-- `sorted(params.items())` from `_generate_signature` (line 27). -/
def sorted_items (params : List (String × String)) : List (String × String) :=
  List.insertionSort pair_le params

/-- The string digested by `_generate_signature`:
`"&".join(f"{k}={v}" for k, v in sorted(params.items()))` followed by
`f"&timestamp={timestamp}"` (lines 27–28). -/
def query_string (params : List (String × String)) (timestamp : String) : String :=
  String.intercalate "&" ((sorted_items params).map (fun kv => kv.1 ++ "=" ++ kv.2))
    ++ "&timestamp=" ++ timestamp

/-- `MEXCTrader._generate_signature` (lines 25–33): the keyed digest of
`query_string`, with the HMAC-SHA256 hex digest abstracted as `hmac`. -/
def generate_signature (hmac : String → String → String) (secretKey : String)
    (params : List (String × String)) (timestamp : String) : String :=
  hmac secretKey (query_string params timestamp)

/-- Python dict item assignment `d[k] = v`: update in place when the key
is present, else append at the end. -/
def dict_set : List (String × String) → String → String → List (String × String)
  | [], k, v => [(k, v)]
  | (k', v') :: rest, k, v =>
    if k' = k then (k, v) :: rest else (k', v') :: dict_set rest k v

/-- Python dict lookup `d.get(k)` for string-valued dicts. -/
def dict_get : List (String × String) → String → Option String
  | [], _ => none
  | (k', v) :: rest, k => if k' = k then some v else dict_get rest k

/-- The keys of a dict, in insertion order. -/
def dict_keys (l : List (String × String)) : List String :=
  l.map Prod.fst

/-- The credential-bound client (`MEXCTrader.__init__`). -/
structure Trader where
  apiKey : String
  secretKey : String
deriving DecidableEq

/-- How the parameters travel: `requests.get(url, params=...)` puts them in
the query string, `requests.post(url, json=...)` in a JSON body. -/
inductive Transport where
  | query : Transport
  | jsonBody : Transport
deriving DecidableEq

/-- One outbound HTTP request as dispatched by `_send_request`. -/
structure HttpRequest where
  method : String
  url : String
  transport : Transport
  params : List (String × String)
  headers : List (String × String)
deriving DecidableEq

/-- What the exchange does with a request: 2xx with a JSON body, 2xx with a
non-JSON body (`response.json()` raises), non-2xx (`raise_for_status`
raises), or a transport failure (`requests.*` raises). -/
inductive HttpOutcome where
  | ok : Json → HttpOutcome
  | okNonJson : HttpOutcome
  | httpError : HttpOutcome
  | transportFail : HttpOutcome

/-- The value `_send_request` produces from an outcome: the parsed JSON on
success, `None` in every failure case (the `except` clause). -/
def outcome_result : HttpOutcome → Option Json
  | .ok body => some body
  | .okNonJson => none
  | .httpError => none
  | .transportFail => none

/-- Result of `_send_request`: the returned value, the outbound requests
actually dispatched, and the caller's `params` dict after the call (the
code mutates it in place). -/
structure SendResult where
  result : Option Json
  calls : List HttpRequest
  paramsAfter : List (String × String)

/-- `MEXC_BASE_URL` (line 17). -/
def MEXC_BASE_URL : String := "https://api.mexc.com"

/-- `MEXCTrader._send_request` (lines 35–63). `params['timestamp']` is set
before the signature is computed, so the signed dict already contains the
timestamp; the signature is added afterwards. Only `'GET'` and `'POST'`
dispatch a request; any other method leaves `response` unbound, raising
inside the `try`, which the `except` turns into `None` with no request
sent. -/
def send_request (hmac : String → String → String) (net : HttpRequest → HttpOutcome)
    (t : Trader) (method endpoint : String)
    (params0 : Option (List (String × String))) (ts : Nat) : SendResult :=
  let params := params0.getD []
  let timestamp := toString ts
  let params1 := dict_set params "timestamp" timestamp
  let headers := [("X-MEXC-APIKEY", t.apiKey), ("Content-Type", "application/json")]
  let signature := generate_signature hmac t.secretKey params1 timestamp
  let params2 := dict_set params1 "signature" signature
  let url := MEXC_BASE_URL ++ endpoint
  if method = "GET" then
    let req : HttpRequest := ⟨"GET", url, Transport.query, params2, headers⟩
    ⟨outcome_result (net req), [req], params2⟩
  else if method = "POST" then
    let req : HttpRequest := ⟨"POST", url, Transport.jsonBody, params2, headers⟩
    ⟨outcome_result (net req), [req], params2⟩
  else
    ⟨none, [], params2⟩

/-- The params dict built by `place_order` (lines 67–72). -/
def place_order_params (symbol side : String) (quantity : Int) (order_type : String) :
    List (String × String) :=
  [("symbol", symbol), ("side", side), ("type", order_type),
   ("quoteOrderQty", toString quantity)]

/-- `MEXCTrader.place_order` (lines 65–74). -/
def place_order (hmac : String → String → String) (net : HttpRequest → HttpOutcome)
    (t : Trader) (ts : Nat) (symbol side : String) (quantity : Int)
    (order_type : String) : SendResult :=
  send_request hmac net t "POST" "/api/v3/order"
    (some (place_order_params symbol side quantity order_type)) ts

/-- `MEXCTrader.get_account_info` (lines 76–78). -/
def get_account_info (hmac : String → String → String) (net : HttpRequest → HttpOutcome)
    (t : Trader) (ts : Nat) : SendResult :=
  send_request hmac net t "GET" "/api/v3/account" none ts

/-- `MEXCTrader.cancel_all_orders` (lines 80–82). -/
def cancel_all_orders (hmac : String → String → String) (net : HttpRequest → HttpOutcome)
    (t : Trader) (ts : Nat) (symbol : String) : SendResult :=
  send_request hmac net t "DELETE" "/api/v3/openOrders" (some [("symbol", symbol)]) ts

/-- `initialize_trader` (lines 87–95): constructs the client only when both
environment variables are present and truthy (non-empty). -/
def init_trader : Option String → Option String → Option Trader
  | some a, some s => if a ≠ "" ∧ s ≠ "" then some ⟨a, s⟩ else none
  | some _, none => none
  | none, _ => none

/-- The trader-level operation the webhook handler invokes. -/
inductive TraderCall where
  | placeOrder : String → String → Int → String → TraderCall
  | cancelAllOrders : String → TraderCall
  | getAccountInfo : TraderCall
deriving DecidableEq

/-- Dispatch one trader-level call to the corresponding `MEXCTrader` method. -/
def run_trader_call (hmac : String → String → String) (net : HttpRequest → HttpOutcome)
    (t : Trader) (ts : Nat) : TraderCall → SendResult
  | .placeOrder symbol side quantity orderType =>
      place_order hmac net t ts symbol side quantity orderType
  | .cancelAllOrders symbol => cancel_all_orders hmac net t ts symbol
  | .getAccountInfo => get_account_info hmac net t ts

/-- The observable outcome of one route handler invocation: HTTP status,
JSON body, the handler's local `result` value, the trader-level calls made,
the outbound HTTP requests made, and the global `trader` afterwards. -/
structure RouteResult where
  status : Nat
  body : Json
  result : Option Json
  traderCalls : List TraderCall
  httpCalls : List HttpRequest
  traderAfter : Option Trader

/-- The `if result: ... else ...` tail of the webhook handler
(lines 151–159). -/
def finish_trade (sr : SendResult) (message : String) (call : TraderCall)
    (tr : Option Trader) : RouteResult :=
  if pyTruthy sr.result then
    ⟨200,
     Json.obj [("status", Json.str "success"), ("message", Json.str message),
               ("mexc_response", (sr.result).getD Json.null)],
     sr.result, [call], sr.calls, tr⟩
  else
    ⟨500, Json.obj [("error", Json.str "Trade failed")], sr.result, [call], sr.calls, tr⟩

/-- The `/webhook` handler (lines 110–163), for a payload already parsed
into its `action`, `symbol` and `quantity` fields (absent fields are
`none`; the handler defaults `symbol` to `"BTCUSDT"` and `quantity` to
`10`). `trader0` is the global `trader` before the request. -/
def webhook (hmac : String → String → String) (net : HttpRequest → HttpOutcome)
    (apiKey? secretKey? : Option String) (trader0 : Option Trader) (ts : Nat)
    (action symbol? : Option String) (quantity? : Option Int) : RouteResult :=
  let trader? := match trader0 with
    | some t => some t
    | none => init_trader apiKey? secretKey?
  match trader? with
  | none =>
      ⟨500, Json.obj [("error", Json.str "MEXC trader not initialized")], none, [], [], none⟩
  | some t =>
      let symbol := symbol?.getD "BTCUSDT"
      let quantity := quantity?.getD 10
      if action = some "buy" ∨ action = some "long" then
        let call := TraderCall.placeOrder symbol "BUY" quantity "MARKET"
        let sr := run_trader_call hmac net t ts call
        finish_trade sr ("LONG açıldı: " ++ symbol ++ " - " ++ toString quantity ++ " USDT")
          call (some t)
      else if action = some "sell" ∨ action = some "short" then
        let call := TraderCall.placeOrder symbol "SELL" quantity "MARKET"
        let sr := run_trader_call hmac net t ts call
        finish_trade sr ("SELL açıldı: " ++ symbol ++ " - " ++ toString quantity ++ " USDT")
          call (some t)
      else if action = some "close_long" ∨ action = some "close_short" ∨ action = some "close" then
        let call := TraderCall.cancelAllOrders symbol
        let sr := run_trader_call hmac net t ts call
        finish_trade sr ("Pozisyon kapatıldı: " ++ symbol) call (some t)
      else
        ⟨400, Json.obj [("error", Json.str "Invalid action")], none, [], [], some t⟩

/-- The `/test` handler `test_trade` (lines 185–207). -/
def test_trade (hmac : String → String → String) (net : HttpRequest → HttpOutcome)
    (apiKey? secretKey? : Option String) (trader0 : Option Trader) (ts : Nat) : RouteResult :=
  let trader? := match trader0 with
    | some t => some t
    | none => init_trader apiKey? secretKey?
  match trader? with
  | none =>
      ⟨500, Json.obj [("error", Json.str "Trader not initialized")], none, [], [], none⟩
  | some t =>
      let sr := get_account_info hmac net t ts
      match sr.result with
      | some j =>
          if j.truthy then
            ⟨200,
             Json.obj [("status", Json.str "success"),
                       ("message", Json.str "MEXC bağlantısı başarılı!"),
                       ("account_info", j)],
             some j, [TraderCall.getAccountInfo], sr.calls, some t⟩
          else
            ⟨500, Json.obj [("error", Json.str "MEXC bağlantısı başarısız!")],
             some j, [TraderCall.getAccountInfo], sr.calls, some t⟩
      | none =>
          ⟨500, Json.obj [("error", Json.str "MEXC bağlantısı başarısız!")],
           none, [TraderCall.getAccountInfo], sr.calls, some t⟩

/-- Modelled from the spec: the serialization C3 and §4.1 describe —
parameters sorted by key ascending (byte/lexicographic order), joined as
`k=v` pairs with `&`, with `&timestamp=<timestamp>` appended. Key-only
comparison, unlike the code's tuple comparison. -/
def key_le (p q : String × String) : Prop :=
  lexLtB q.1.data p.1.data = false

instance key_le_dec : DecidableRel key_le := fun p q =>
  if h : lexLtB q.1.data p.1.data = false
  then Decidable.isTrue h else Decidable.isFalse h

/-- Modelled from the spec: sorting by key ascending only. -/
def spec_sorted (params : List (String × String)) : List (String × String) :=
  List.insertionSort key_le params

/-- Modelled from the spec: the full serialized string of claim C3. -/
def spec_serialize (params : List (String × String)) (timestamp : String) : String :=
  String.intercalate "&" ((spec_sorted params).map (fun kv => kv.1 ++ "=" ++ kv.2))
    ++ "&timestamp=" ++ timestamp

/-- Modelled from the spec: the digest string claim C1 asserts
`_send_request` signs — the non-signature, non-timestamp parameters sorted
lexicographically, joined as `key=value` with `&`, followed by exactly one
trailing `&timestamp=<ts>` component. -/
def c1_claimed_digest_string (params : List (String × String)) (timestamp : String) : String :=
  String.intercalate "&"
      ((sorted_items (params.filter
          (fun kv => kv.1 ≠ "timestamp" ∧ kv.1 ≠ "signature"))).map
        (fun kv => kv.1 ++ "=" ++ kv.2))
    ++ "&timestamp=" ++ timestamp

/-- A concrete keyed digest used by witnesses: tags key and message. -/
def hmacTag (key msg : String) : String := key ++ "#" ++ msg

/-- A concrete keyed digest used by counterexamples: returns the message,
so the stored signature *is* the digested string. -/
def hmacMsg (_key msg : String) : String := msg

/-- A network that always fails at the transport layer. -/
def netFail (_req : HttpRequest) : HttpOutcome := HttpOutcome.transportFail

/-- A network on which every request succeeds with the empty JSON object. -/
def netEmptyObj (_req : HttpRequest) : HttpOutcome := HttpOutcome.ok (Json.obj [])

/-- A concrete trader used by witnesses. -/
def testTrader : Trader := ⟨"test-api-key", "test-secret-key"⟩

/-- The value an operation must return given the calls it dispatched: the
parsed JSON body of its single request when that request succeeded, `None`
otherwise (failure outcomes and the zero-call case alike). -/
def result_of_calls (net : HttpRequest → HttpOutcome) : List HttpRequest → Option Json
  | [req] => outcome_result (net req)
  | _ => none

/-! ## Order properties of the code-point lexicographic comparison -/

theorem lexLtB_irrefl : ∀ l : List Char, lexLtB l l = false
  | [] => rfl
  | a :: as => by simp [lexLtB, lexLtB_irrefl as]

theorem lexLtB_trans : ∀ {l1 l2 l3 : List Char},
    lexLtB l1 l2 = true → lexLtB l2 l3 = true → lexLtB l1 l3 = true
  | [], [], _, h1, _ => Bool.noConfusion h1
  | _ :: _, [], _, h1, _ => Bool.noConfusion h1
  | _, _ :: _, [], _, h2 => Bool.noConfusion h2
  | [], _ :: _, _ :: _, _, _ => rfl
  | a :: as, b :: bs, c :: cs, h1, h2 => by
    simp only [lexLtB] at h1 h2 ⊢
    by_cases hab : a.toNat < b.toNat
    · by_cases hbc : b.toNat < c.toNat
      · rw [if_pos (Nat.lt_trans hab hbc)]
      · by_cases hcb : c.toNat < b.toNat
        · rw [if_neg hbc, if_pos hcb] at h2
          exact Bool.noConfusion h2
        · rw [if_pos (show a.toNat < c.toNat by omega)]
    · by_cases hba : b.toNat < a.toNat
      · rw [if_neg hab, if_pos hba] at h1
        exact Bool.noConfusion h1
      · rw [if_neg hab, if_neg hba] at h1
        by_cases hbc : b.toNat < c.toNat
        · rw [if_pos (show a.toNat < c.toNat by omega)]
        · by_cases hcb : c.toNat < b.toNat
          · rw [if_neg hbc, if_pos hcb] at h2
            exact Bool.noConfusion h2
          · rw [if_neg hbc, if_neg hcb] at h2
            rw [if_neg (show ¬ a.toNat < c.toNat by omega),
                if_neg (show ¬ c.toNat < a.toNat by omega)]
            exact lexLtB_trans h1 h2

theorem lexLtB_asymm : ∀ {l1 l2 : List Char},
    lexLtB l1 l2 = true → lexLtB l2 l1 = false
  | [], [], h => Bool.noConfusion h
  | _ :: _, [], h => Bool.noConfusion h
  | [], _ :: _, _ => rfl
  | a :: as, b :: bs, h => by
    simp only [lexLtB] at h ⊢
    by_cases hab : a.toNat < b.toNat
    · rw [if_neg (Nat.lt_asymm hab), if_pos hab]
    · by_cases hba : b.toNat < a.toNat
      · rw [if_neg hab, if_pos hba] at h
        exact Bool.noConfusion h
      · rw [if_neg hab, if_neg hba] at h
        rw [if_neg hba, if_neg hab]
        exact lexLtB_asymm h

theorem lexLtB_eq_of_false : ∀ {l1 l2 : List Char},
    lexLtB l1 l2 = false → lexLtB l2 l1 = false → l1 = l2
  | [], [], _, _ => rfl
  | [], _ :: _, h1, _ => Bool.noConfusion h1
  | _ :: _, [], _, h2 => Bool.noConfusion h2
  | a :: as, b :: bs, h1, h2 => by
    simp only [lexLtB] at h1 h2
    by_cases hab : a.toNat < b.toNat
    · rw [if_pos hab] at h1
      exact Bool.noConfusion h1
    · by_cases hba : b.toNat < a.toNat
      · rw [if_pos hba] at h2
        exact Bool.noConfusion h2
      · rw [if_neg hab, if_neg hba] at h1
        rw [if_neg hba, if_neg hab] at h2
        have hnat : a.toNat = b.toNat := by omega
        have hhead : a = b := Char.ext (UInt32.ext hnat)
        rw [hhead, lexLtB_eq_of_false h1 h2]

theorem lexLtB_false_trans {l1 l2 l3 : List Char}
    (h1 : lexLtB l2 l1 = false) (h2 : lexLtB l3 l2 = false) :
    lexLtB l3 l1 = false := by
  cases h12 : lexLtB l1 l2 with
  | true =>
      cases h31 : lexLtB l3 l1 with
      | true => exact absurd (lexLtB_trans h31 h12) (by simp [h2])
      | false => rfl
  | false =>
      have := lexLtB_eq_of_false h12 h1
      subst this
      exact h2

/-- Strings are equal when their char lists are. -/
theorem str_eq_of_data_eq {s t : String} (h : s.data = t.data) : s = t :=
  String.toList_inj.mp h

instance pair_le_total : IsTotal (String × String) pair_le := by
  constructor
  intro p q
  cases hk : lexLtB p.1.data q.1.data with
  | true => exact Or.inl (Or.inl hk)
  | false =>
      cases hk2 : lexLtB q.1.data p.1.data with
      | true => exact Or.inr (Or.inl hk2)
      | false =>
          have hkey : p.1 = q.1 := str_eq_of_data_eq (lexLtB_eq_of_false hk hk2)
          cases hv : lexLtB q.2.data p.2.data with
          | false => exact Or.inl (Or.inr ⟨hkey, hv⟩)
          | true => exact Or.inr (Or.inr ⟨hkey.symm, lexLtB_asymm hv⟩)

instance pair_le_trans : IsTrans (String × String) pair_le := by
  constructor
  rintro p q r (h1 | ⟨hk1, hv1⟩) (h2 | ⟨hk2, hv2⟩)
  · exact Or.inl (lexLtB_trans h1 h2)
  · exact Or.inl (hk2 ▸ h1)
  · refine Or.inl ?_
    rw [hk1]
    exact h2
  · exact Or.inr ⟨hk1.trans hk2, lexLtB_false_trans hv1 hv2⟩

instance pair_le_antisymm : IsAntisymm (String × String) pair_le := by
  constructor
  rintro p q (h1 | ⟨hk1, hv1⟩) (h2 | ⟨hk2, hv2⟩)
  · exact absurd h2 (by simp [lexLtB_asymm h1])
  · rw [hk2] at h1
    exact absurd h1 (by simp [lexLtB_irrefl])
  · rw [hk1] at h2
    exact absurd h2 (by simp [lexLtB_irrefl])
  · exact Prod.ext hk1 (str_eq_of_data_eq (lexLtB_eq_of_false hv2 hv1))

instance key_le_total : IsTotal (String × String) key_le := by
  constructor
  intro p q
  cases hk : lexLtB q.1.data p.1.data with
  | false => exact Or.inl hk
  | true => exact Or.inr (lexLtB_asymm hk)

instance key_le_trans : IsTrans (String × String) key_le := by
  constructor
  intro p q r h1 h2
  exact lexLtB_false_trans h1 h2

/-! ## Dict lemmas -/

theorem dict_set_of_absent :
    ∀ (l : List (String × String)) (k v : String), dict_get l k = none →
      dict_set l k v = l ++ [(k, v)]
  | [], _, _, _ => rfl
  | (k', v') :: rest, k, v, h => by
    simp only [dict_get] at h
    by_cases hk : k' = k
    · simp [hk] at h
    · simp only [dict_set, hk, if_false, List.cons_append, List.cons.injEq, true_and]
      simp only [if_neg hk] at h
      exact dict_set_of_absent rest k v h

theorem dict_get_eq_none_iff :
    ∀ {l : List (String × String)} {k : String}, dict_get l k = none ↔ k ∉ dict_keys l
  | [], k => by simp [dict_get, dict_keys]
  | (k', v') :: rest, k => by
    simp only [dict_get, dict_keys, List.map_cons, List.mem_cons]
    by_cases hk : k' = k
    · simp [hk]
    · simp only [if_neg hk]
      rw [dict_get_eq_none_iff]
      simp [dict_keys, Ne.symm hk]

/-! ## Sorting lemmas -/

theorem sorted_items_perm (l : List (String × String)) : (sorted_items l).Perm l :=
  List.perm_insertionSort pair_le l

theorem sorted_items_sorted (l : List (String × String)) :
    List.Sorted pair_le (sorted_items l) :=
  List.sorted_insertionSort pair_le l

theorem spec_sorted_perm (l : List (String × String)) : (spec_sorted l).Perm l :=
  List.perm_insertionSort key_le l

theorem spec_sorted_sorted (l : List (String × String)) :
    List.Sorted key_le (spec_sorted l) :=
  List.sorted_insertionSort key_le l

/-- Permutations with the same sort key order sort identically: the code's
tuple-comparison sort is insertion-order independent. -/
theorem sorted_items_eq_of_perm {p1 p2 : List (String × String)} (h : p1.Perm p2) :
    sorted_items p1 = sorted_items p2 :=
  List.eq_of_perm_of_sorted
    ((sorted_items_perm p1).trans (h.trans (sorted_items_perm p2).symm))
    (sorted_items_sorted p1) (sorted_items_sorted p2)

/-- When the keys are pairwise distinct, the code's tuple-comparison sort
agrees with the spec's key-only sort. -/
theorem sorted_items_eq_spec_sorted {l : List (String × String)}
    (h : (dict_keys l).Nodup) : sorted_items l = spec_sorted l := by
  have hperm : (sorted_items l).Perm (spec_sorted l) :=
    (sorted_items_perm l).trans (spec_sorted_perm l).symm
  have hne : l.Pairwise (fun p q : String × String => p.1 ≠ q.1) := by
    have h2 : (l.map Prod.fst).Nodup := h
    exact (List.pairwise_map).mp h2
  have hne1 : (sorted_items l).Pairwise (fun p q : String × String => p.1 ≠ q.1) :=
    (List.Perm.pairwise_iff (fun hxy => Ne.symm hxy) (sorted_items_perm l)).mpr hne
  have hne2 : (spec_sorted l).Pairwise (fun p q : String × String => p.1 ≠ q.1) :=
    (List.Perm.pairwise_iff (fun hxy => Ne.symm hxy) (spec_sorted_perm l)).mpr hne
  have hp1 : (sorted_items l).Pairwise pair_le := sorted_items_sorted l
  have hp2 : (spec_sorted l).Pairwise key_le := spec_sorted_sorted l
  have hs1 : (sorted_items l).Pairwise
      (fun p q : String × String => lexLtB p.1.data q.1.data = true) := by
    refine (hp1.and hne1).imp ?_
    rintro a b ⟨hle | ⟨hkeq, _⟩, hne3⟩
    · exact hle
    · exact absurd hkeq hne3
  have hs2 : (spec_sorted l).Pairwise
      (fun p q : String × String => lexLtB p.1.data q.1.data = true) := by
    refine (hp2.and hne2).imp ?_
    rintro a b ⟨hle, hne3⟩
    cases hlt : lexLtB a.1.data b.1.data with
    | true => rfl
    | false =>
        exact absurd (str_eq_of_data_eq (lexLtB_eq_of_false hlt hle)) hne3
  haveI : IsAntisymm (String × String)
      (fun p q : String × String => lexLtB p.1.data q.1.data = true) := by
    constructor
    intro a b h1 h2
    rw [lexLtB_asymm h1] at h2
    exact Bool.noConfusion h2
  exact List.eq_of_perm_of_sorted hperm hs1 hs2

/-- Sorting does not change how often a key occurs. -/
theorem count_keys_sorted_items (l : List (String × String)) (k : String) :
    (dict_keys (sorted_items l)).count k = (dict_keys l).count k :=
  ((sorted_items_perm l).map Prod.fst).count_eq k

/-- The mutated dict after `_send_request`: timestamp is set first, then the
signature, which is computed over the dict that already holds the
timestamp. -/
theorem send_request_paramsAfter (hmac : String → String → String)
    (net : HttpRequest → HttpOutcome) (t : Trader) (method endpoint : String)
    (params : List (String × String)) (ts : Nat) :
    (send_request hmac net t method endpoint (some params) ts).paramsAfter
      = dict_set (dict_set params "timestamp" (toString ts)) "signature"
          (generate_signature hmac t.secretKey
            (dict_set params "timestamp" (toString ts)) (toString ts)) := by
  unfold send_request
  by_cases h1 : method = "GET"
  · simp [h1]
  · by_cases h2 : method = "POST" <;> simp [h1, h2]

/-! ## Claim C3 -/

/-- C3: for every parameter mapping (string keys and values, keys pairwise
distinct) and every int64 timestamp, the signature produced by
`_generate_signature` is the keyed HMAC-SHA256 digest — abstracted as the
arbitrary `hmac` — of exactly the string the spec describes: the
parameters serialized sorted by key ascending as `k1=v1&k2=v2&...` with
`&timestamp=<timestamp>` appended. Since the theorem holds for every
`hmac`, it identifies the digested string itself. -/
theorem generate_signature_matches_spec_serialization
    (hmac : String → String → String) (secretKey : String)
    (params : List (String × String)) (ts : Int)
    (h : (dict_keys params).Nodup) :
    generate_signature hmac secretKey params (toString ts)
      = hmac secretKey (spec_serialize params (toString ts)) := by
  unfold generate_signature query_string spec_serialize
  rw [sorted_items_eq_spec_sorted h]

/-- C3 witness: the theorem applied at a concrete mapping and timestamp. -/
theorem generate_signature_matches_spec_serialization_witness :
    (dict_keys [("symbol", "BTCUSDT"), ("side", "BUY")]).Nodup
      ∧ generate_signature hmacTag "sec" [("symbol", "BTCUSDT"), ("side", "BUY")]
            (toString (1700000000000 : Int))
          = hmacTag "sec" (spec_serialize [("symbol", "BTCUSDT"), ("side", "BUY")]
              (toString (1700000000000 : Int))) :=
  ⟨by decide,
   generate_signature_matches_spec_serialization hmacTag "sec"
     [("symbol", "BTCUSDT"), ("side", "BUY")] 1700000000000 (by decide)⟩

/-! ## Claim C9 -/

/-- C9: signature generation is a pure function of its inputs (it is a
Lean function of `hmac`, secret, params and timestamp, so determinism is
definitional), and it depends only on the key-value set of the parameter
mapping, not on insertion order: permuted parameter lists yield the same
signature for the same timestamp. -/
theorem generate_signature_insertion_order_invariant
    (hmac : String → String → String) (secretKey : String)
    (p1 p2 : List (String × String)) (timestamp : String)
    (h : p1.Perm p2) :
    generate_signature hmac secretKey p1 timestamp
      = generate_signature hmac secretKey p2 timestamp := by
  unfold generate_signature query_string
  rw [sorted_items_eq_of_perm h]

/-- C9 witness: the theorem applied to the same two-entry mapping built in
the two possible insertion orders. -/
theorem generate_signature_insertion_order_invariant_witness :
    ([("b", "2"), ("a", "1")] : List (String × String)).Perm [("a", "1"), ("b", "2")]
      ∧ generate_signature hmacTag "sec" [("b", "2"), ("a", "1")] "123"
          = generate_signature hmacTag "sec" [("a", "1"), ("b", "2")] "123" :=
  ⟨List.Perm.swap ("a", "1") ("b", "2") [],
   generate_signature_insertion_order_invariant hmacTag "sec"
     [("b", "2"), ("a", "1")] [("a", "1"), ("b", "2")] "123"
     (List.Perm.swap ("a", "1") ("b", "2") [])⟩

/-! ## More dict lemmas -/

theorem dict_get_append_ne {k k2 v : String} :
    ∀ l : List (String × String), k ≠ k2 →
      dict_get (l ++ [(k2, v)]) k = dict_get l k
  | [], hne => by simp [dict_get, Ne.symm hne]
  | (k', v') :: rest, hne => by
    by_cases hk : k' = k
    · simp [dict_get, hk]
    · simp only [List.cons_append, dict_get, if_neg hk]
      exact dict_get_append_ne rest hne

/-! ## Claim C1 -/

/-- C1 counterexample: with `hmac` instantiated to the function that
returns its message, the signature stored by `_send_request` is exactly
the digested string. For the single caller parameter `symbol=BTCUSDT` and
timestamp `1000`, the digested string contains `timestamp=1000` twice —
once sorted among the parameters (because the code inserts the timestamp
into `params` before signing) and once appended — and so differs from the
string the claim describes, in which the timestamp occurs exactly once. -/
theorem send_digest_counterexample :
    dict_get (send_request hmacMsg netFail ⟨"k", "s"⟩ "POST" "/api/v3/order"
        (some [("symbol", "BTCUSDT")]) 1000).paramsAfter "signature"
      = some "symbol=BTCUSDT&timestamp=1000&timestamp=1000"
    ∧ c1_claimed_digest_string [("symbol", "BTCUSDT")] "1000"
        = "symbol=BTCUSDT&timestamp=1000"
    ∧ ("symbol=BTCUSDT&timestamp=1000&timestamp=1000" : String)
        ≠ "symbol=BTCUSDT&timestamp=1000" := by
  refine ⟨?_, ?_, ?_⟩ <;> decide

/-- C1 amended: the string `_send_request` digests consists of the
caller's (non-signature) parameters *plus the inserted timestamp entry*,
sorted lexicographically, joined as `key=value` pairs with `&`, followed
by one additional trailing `&timestamp=<ts>` component — the timestamp
therefore appears twice, once within the sorted pairs and once appended —
while the signature parameter is still never part of its own digest. -/
theorem send_digest_amended (hmac : String → String → String)
    (net : HttpRequest → HttpOutcome) (t : Trader) (method endpoint : String)
    (params : List (String × String)) (ts : Nat)
    (hts : dict_get params "timestamp" = none)
    (hsig : dict_get params "signature" = none) :
    (send_request hmac net t method endpoint (some params) ts).paramsAfter
        = dict_set (dict_set params "timestamp" (toString ts)) "signature"
            (hmac t.secretKey
              (query_string (dict_set params "timestamp" (toString ts)) (toString ts)))
      ∧ query_string (dict_set params "timestamp" (toString ts)) (toString ts)
          = String.intercalate "&"
              ((sorted_items (params ++ [("timestamp", toString ts)])).map
                (fun kv => kv.1 ++ "=" ++ kv.2))
            ++ "&timestamp=" ++ toString ts
      ∧ "signature" ∉ dict_keys (dict_set params "timestamp" (toString ts))
      ∧ (dict_keys (sorted_items (dict_set params "timestamp" (toString ts)))).count
            "timestamp" = 1 := by
  refine ⟨send_request_paramsAfter hmac net t method endpoint params ts, ?_, ?_, ?_⟩
  · rw [dict_set_of_absent params _ _ hts]
    rfl
  · rw [dict_set_of_absent params _ _ hts]
    intro hmem
    have : dict_get (params ++ [("timestamp", toString ts)]) "signature" = none := by
      rw [dict_get_append_ne params (by decide)]
      exact hsig
    exact absurd hmem (dict_get_eq_none_iff.mp this)
  · rw [dict_set_of_absent params _ _ hts, count_keys_sorted_items]
    have h0 : (params.map Prod.fst).count "timestamp" = 0 :=
      List.count_eq_zero.mpr (dict_get_eq_none_iff.mp hts)
    simp [dict_keys, h0]

/-- C1 amended witness: the amended theorem applied at a concrete
parameter dict and timestamp. -/
theorem send_digest_amended_witness :
    dict_get [("symbol", "ETHUSDT")] "timestamp" = none
      ∧ dict_get [("symbol", "ETHUSDT")] "signature" = none
      ∧ ((send_request hmacTag netFail testTrader "POST" "/api/v3/order"
            (some [("symbol", "ETHUSDT")]) 7).paramsAfter
            = dict_set (dict_set [("symbol", "ETHUSDT")] "timestamp" (toString (7 : Nat)))
                "signature"
                (hmacTag testTrader.secretKey
                  (query_string
                    (dict_set [("symbol", "ETHUSDT")] "timestamp" (toString (7 : Nat)))
                    (toString (7 : Nat))))
          ∧ query_string (dict_set [("symbol", "ETHUSDT")] "timestamp" (toString (7 : Nat)))
                (toString (7 : Nat))
              = String.intercalate "&"
                  ((sorted_items ([("symbol", "ETHUSDT")] ++ [("timestamp", toString (7 : Nat))])).map
                    (fun kv => kv.1 ++ "=" ++ kv.2))
                ++ "&timestamp=" ++ toString (7 : Nat)
          ∧ "signature" ∉ dict_keys (dict_set [("symbol", "ETHUSDT")] "timestamp" (toString (7 : Nat)))
          ∧ (dict_keys (sorted_items (dict_set [("symbol", "ETHUSDT")] "timestamp"
                (toString (7 : Nat))))).count "timestamp" = 1) :=
  ⟨rfl, rfl,
   send_digest_amended hmacTag netFail testTrader "POST" "/api/v3/order"
     [("symbol", "ETHUSDT")] 7 rfl rfl⟩

/-! ## Claim C8 -/

/-- C8 counterexample: `_send_request` does *not* leave the caller's
mapping unchanged — after the call the dict a caller passed has acquired
`timestamp` and `signature` entries, because the code mutates `params` in
place rather than a working copy. -/
theorem send_mutation_counterexample :
    (send_request hmacMsg netFail ⟨"k", "s"⟩ "POST" "/api/v3/order"
        (some [("symbol", "BTCUSDT")]) 1000).paramsAfter
      ≠ [("symbol", "BTCUSDT")]
    ∧ dict_get (send_request hmacMsg netFail ⟨"k", "s"⟩ "POST" "/api/v3/order"
        (some [("symbol", "BTCUSDT")]) 1000).paramsAfter "timestamp"
      = some "1000" := by
  refine ⟨?_, ?_⟩ <;> decide

/-- C8 amended: `_send_request` mutates the caller's mapping in place:
for a caller dict without `timestamp` or `signature` keys, the dict after
the call is the caller's entries followed by the added `timestamp` and
`signature` entries. -/
theorem send_mutation_amended (hmac : String → String → String)
    (net : HttpRequest → HttpOutcome) (t : Trader) (method endpoint : String)
    (params : List (String × String)) (ts : Nat)
    (hts : dict_get params "timestamp" = none)
    (hsig : dict_get params "signature" = none) :
    (send_request hmac net t method endpoint (some params) ts).paramsAfter
      = params ++ [("timestamp", toString ts),
          ("signature", generate_signature hmac t.secretKey
            (params ++ [("timestamp", toString ts)]) (toString ts))] := by
  rw [send_request_paramsAfter, dict_set_of_absent params _ _ hts,
      dict_set_of_absent _ _ _ (by rw [dict_get_append_ne params (by decide)]; exact hsig)]
  simp

/-- C8 amended witness: the amended theorem applied at a concrete caller
dict. -/
theorem send_mutation_amended_witness :
    dict_get [("symbol", "ETHUSDT")] "timestamp" = none
      ∧ dict_get [("symbol", "ETHUSDT")] "signature" = none
      ∧ (send_request hmacTag netFail testTrader "GET" "/api/v3/account"
            (some [("symbol", "ETHUSDT")]) 7).paramsAfter
          = [("symbol", "ETHUSDT")]
              ++ [("timestamp", toString (7 : Nat)),
                  ("signature", generate_signature hmacTag testTrader.secretKey
                    ([("symbol", "ETHUSDT")] ++ [("timestamp", toString (7 : Nat))])
                    (toString (7 : Nat)))] :=
  ⟨rfl, rfl,
   send_mutation_amended hmacTag netFail testTrader "GET" "/api/v3/account"
     [("symbol", "ETHUSDT")] 7 rfl rfl⟩

/-! ## Claim C2 -/

/-- C2: contrary to the claim (one outbound DELETE to `/api/v3/openOrders`),
`cancel_all_orders` dispatches *no* HTTP request at all and always returns
`None`: `_send_request` only handles the methods `'GET'` and `'POST'`, so
for `'DELETE'` the local `response` is never bound, `response.raise_for_status()`
raises `UnboundLocalError` inside the `try`, and the `except` swallows it. -/
theorem cancel_all_orders_sends_nothing (hmac : String → String → String)
    (net : HttpRequest → HttpOutcome) (t : Trader) (ts : Nat) (symbol : String) :
    (cancel_all_orders hmac net t ts symbol).calls = []
      ∧ (cancel_all_orders hmac net t ts symbol).result = none := by
  unfold cancel_all_orders send_request
  simp

/-! ## Claim C4 -/

/-- C4: `place_order` builds exactly the four-entry parameter dict
`{symbol, side, type, quoteOrderQty: str(quantity)}` before timestamp and
signature are added — concretely, `place_order("BTCUSDT", "BUY", 50,
"MARKET")` builds exactly those four entries with `quoteOrderQty = "50"` —
and dispatches exactly one POST to `/api/v3/order` with the parameters
travelling as a JSON body. -/
theorem place_order_builds_and_dispatches (hmac : String → String → String)
    (net : HttpRequest → HttpOutcome) (t : Trader) (ts : Nat)
    (symbol side : String) (quantity : Int) (order_type : String) :
    place_order_params symbol side quantity order_type
        = [("symbol", symbol), ("side", side), ("type", order_type),
           ("quoteOrderQty", toString quantity)]
      ∧ place_order_params "BTCUSDT" "BUY" 50 "MARKET"
          = [("symbol", "BTCUSDT"), ("side", "BUY"), ("type", "MARKET"),
             ("quoteOrderQty", "50")]
      ∧ (place_order hmac net t ts symbol side quantity order_type).calls
          = [⟨"POST", MEXC_BASE_URL ++ "/api/v3/order", Transport.jsonBody,
              dict_set
                (dict_set (place_order_params symbol side quantity order_type)
                  "timestamp" (toString ts))
                "signature"
                (generate_signature hmac t.secretKey
                  (dict_set (place_order_params symbol side quantity order_type)
                    "timestamp" (toString ts))
                  (toString ts)),
              [("X-MEXC-APIKEY", t.apiKey), ("Content-Type", "application/json")]⟩] := by
  refine ⟨rfl, rfl, ?_⟩
  unfold place_order send_request
  simp

/-! ## Claim C7 -/

/-- C7: none of the three Exchange Client operations can raise past its
boundary — each is a total function returning the parsed JSON body of its
single successful request and `None` in every failure case (transport
failure, non-2xx status, non-JSON body — all collapsed by `outcome_result`
— as well as the dispatchless DELETE case), and each performs at most one
outbound call, with no retry. -/
theorem exchange_ops_no_raise_no_retry (hmac : String → String → String)
    (net : HttpRequest → HttpOutcome) (t : Trader) (ts : Nat)
    (symbol side : String) (quantity : Int) (order_type : String) :
    ((place_order hmac net t ts symbol side quantity order_type).calls.length ≤ 1
      ∧ (place_order hmac net t ts symbol side quantity order_type).result
          = result_of_calls net (place_order hmac net t ts symbol side quantity order_type).calls)
      ∧ ((get_account_info hmac net t ts).calls.length ≤ 1
        ∧ (get_account_info hmac net t ts).result
            = result_of_calls net (get_account_info hmac net t ts).calls)
      ∧ ((cancel_all_orders hmac net t ts symbol).calls.length ≤ 1
        ∧ (cancel_all_orders hmac net t ts symbol).result
            = result_of_calls net (cancel_all_orders hmac net t ts symbol).calls) := by
  refine ⟨⟨?_, ?_⟩, ⟨?_, ?_⟩, ⟨?_, ?_⟩⟩ <;>
    simp [place_order, get_account_info, cancel_all_orders, send_request, result_of_calls]

/-! ## Webhook helper lemmas -/

theorem finish_trade_traderCalls (sr : SendResult) (m : String) (c : TraderCall)
    (tr : Option Trader) : (finish_trade sr m c tr).traderCalls = [c] := by
  unfold finish_trade
  split <;> rfl

theorem finish_trade_result (sr : SendResult) (m : String) (c : TraderCall)
    (tr : Option Trader) : (finish_trade sr m c tr).result = sr.result := by
  unfold finish_trade
  split <;> rfl

theorem finish_trade_status_iff (sr : SendResult) (m : String) (c : TraderCall)
    (tr : Option Trader) :
    ((finish_trade sr m c tr).status = 200 ↔ pyTruthy sr.result = true) := by
  unfold finish_trade
  split_ifs with hp <;> simp [hp]

/-- With no pre-existing trader, the handler behaves as if the lazily
(re)initialized trader had been the global one. -/
theorem webhook_none_trader (hmac : String → String → String)
    (net : HttpRequest → HttpOutcome) (ak sk : Option String) (ts : Nat)
    (action symbol? : Option String) (quantity? : Option Int) :
    webhook hmac net ak sk none ts action symbol? quantity?
      = webhook hmac net ak sk (init_trader ak sk) ts action symbol? quantity? := by
  unfold webhook
  cases init_trader ak sk <;> rfl

/-- The 200-iff-truthy shape of the handler when a trader is present. -/
theorem webhook_some_status_iff (hmac : String → String → String)
    (net : HttpRequest → HttpOutcome) (ak sk : Option String) (t : Trader) (ts : Nat)
    (action symbol? : Option String) (quantity? : Option Int) :
    ((webhook hmac net ak sk (some t) ts action symbol? quantity?).status = 200
      ↔ pyTruthy (webhook hmac net ak sk (some t) ts action symbol? quantity?).result
          = true) := by
  simp only [webhook]
  by_cases h1 : action = some "buy" ∨ action = some "long"
  · rw [if_pos h1, finish_trade_result]
    exact finish_trade_status_iff _ _ _ _
  · rw [if_neg h1]
    by_cases h2 : action = some "sell" ∨ action = some "short"
    · rw [if_pos h2, finish_trade_result]
      exact finish_trade_status_iff _ _ _ _
    · rw [if_neg h2]
      by_cases h3 : action = some "close_long" ∨ action = some "close_short"
          ∨ action = some "close"
      · rw [if_pos h3, finish_trade_result]
        exact finish_trade_status_iff _ _ _ _
      · rw [if_neg h3]
        simp [pyTruthy]

/-! ## Claim C5 -/

/-- C5: with an initialized trader, `buy`/`long` make exactly one
`place_order` call with side BUY (and produce bitwise identical results,
including for the same symbol and quantity), `sell`/`short` exactly one
`place_order` with side SELL, the three close actions exactly one
`cancel_all_orders` call and no `place_order`, and any other action value
yields HTTP 400 `Invalid action` with no exchange-client call at all. -/
theorem webhook_routing (hmac : String → String → String)
    (net : HttpRequest → HttpOutcome) (ak sk : Option String) (t : Trader) (ts : Nat)
    (symbol? : Option String) (quantity? : Option Int) :
    (∀ a : Option String, a = some "buy" ∨ a = some "long" →
        (webhook hmac net ak sk (some t) ts a symbol? quantity?).traderCalls
          = [TraderCall.placeOrder (symbol?.getD "BTCUSDT") "BUY" (quantity?.getD 10)
              "MARKET"])
      ∧ webhook hmac net ak sk (some t) ts (some "buy") symbol? quantity?
          = webhook hmac net ak sk (some t) ts (some "long") symbol? quantity?
      ∧ (∀ a : Option String, a = some "sell" ∨ a = some "short" →
          (webhook hmac net ak sk (some t) ts a symbol? quantity?).traderCalls
            = [TraderCall.placeOrder (symbol?.getD "BTCUSDT") "SELL" (quantity?.getD 10)
                "MARKET"])
      ∧ (∀ a : Option String,
          a = some "close_long" ∨ a = some "close_short" ∨ a = some "close" →
          (webhook hmac net ak sk (some t) ts a symbol? quantity?).traderCalls
            = [TraderCall.cancelAllOrders (symbol?.getD "BTCUSDT")])
      ∧ (∀ a : Option String,
          a ∉ ([some "buy", some "long", some "sell", some "short", some "close_long",
                some "close_short", some "close"] : List (Option String)) →
          webhook hmac net ak sk (some t) ts a symbol? quantity?
            = ⟨400, Json.obj [("error", Json.str "Invalid action")], none, [], [],
                some t⟩) := by
  refine ⟨?_, ?_, ?_, ?_, ?_⟩
  · rintro a (rfl | rfl) <;> simp [webhook, finish_trade_traderCalls]
  · simp [webhook]
  · rintro a (rfl | rfl) <;> simp [webhook, finish_trade_traderCalls]
  · rintro a (rfl | rfl | rfl) <;> simp [webhook, finish_trade_traderCalls]
  · intro a ha
    simp only [List.mem_cons, List.not_mem_nil, or_false, not_or] at ha
    obtain ⟨h1, h2, h3, h4, h5, h6, h7⟩ := ha
    simp only [webhook]
    rw [if_neg (by simp [h1, h2]), if_neg (by simp [h3, h4]),
        if_neg (by simp [h5, h6, h7])]

/-- C5 witness: a recognized action (`buy`) and an unrecognized one
(`hold`) at concrete inputs, through the routing theorem. -/
theorem webhook_routing_witness :
    ((some "buy" : Option String) = some "buy" ∨ (some "buy" : Option String) = some "long")
      ∧ (webhook hmacTag netFail none none (some testTrader) 5 (some "buy") none
            none).traderCalls
          = [TraderCall.placeOrder "BTCUSDT" "BUY" 10 "MARKET"]
      ∧ (some "hold" : Option String)
          ∉ ([some "buy", some "long", some "sell", some "short", some "close_long",
              some "close_short", some "close"] : List (Option String))
      ∧ webhook hmacTag netFail none none (some testTrader) 5 (some "hold") none none
          = ⟨400, Json.obj [("error", Json.str "Invalid action")], none, [], [],
              some testTrader⟩ :=
  ⟨Or.inl rfl,
   (webhook_routing hmacTag netFail none none testTrader 5 none none).1 (some "buy")
     (Or.inl rfl),
   by decide,
   (webhook_routing hmacTag netFail none none testTrader 5 none none).2.2.2.2
     (some "hold") (by decide)⟩

/-! ## Claim C6 -/

/-- C6: when either credential is absent from the environment, the trader
is never constructed (`initialize_trader` yields nothing and the global
stays unset), and both `/webhook` and `/test` answer with a 500
initialization error having made zero trader-level calls and zero outbound
HTTP calls. -/
theorem missing_credentials_no_network_call (hmac : String → String → String)
    (net : HttpRequest → HttpOutcome) (ts : Nat) (action symbol? : Option String)
    (quantity? : Option Int) (ak sk : Option String)
    (h : ak = none ∨ sk = none) :
    init_trader ak sk = none
      ∧ webhook hmac net ak sk none ts action symbol? quantity?
          = ⟨500, Json.obj [("error", Json.str "MEXC trader not initialized")],
              none, [], [], none⟩
      ∧ test_trade hmac net ak sk none ts
          = ⟨500, Json.obj [("error", Json.str "Trader not initialized")],
              none, [], [], none⟩ := by
  have hinit : init_trader ak sk = none := by
    rcases h with h | h
    · subst h
      rfl
    · subst h
      cases ak <;> rfl
  refine ⟨hinit, ?_, ?_⟩ <;> simp [webhook, test_trade, hinit]

/-- C6 witness: the theorem applied with the API key absent. -/
theorem missing_credentials_no_network_call_witness :
    ((none : Option String) = none ∨ (some "sk" : Option String) = none)
      ∧ (init_trader none (some "sk") = none
        ∧ webhook hmacTag netFail none (some "sk") none 5 (some "buy") none none
            = ⟨500, Json.obj [("error", Json.str "MEXC trader not initialized")],
                none, [], [], none⟩
        ∧ test_trade hmacTag netFail none (some "sk") none 5
            = ⟨500, Json.obj [("error", Json.str "Trader not initialized")],
                none, [], [], none⟩) :=
  ⟨Or.inl rfl,
   missing_credentials_no_network_call hmacTag netFail 5 (some "buy") none none none
     (some "sk") (Or.inl rfl)⟩

/-! ## Claim C10 -/

/-- C10: the webhook reports HTTP 200 (success envelope) exactly when the
handler's `result` value is truthy in Python's sense; consequently a
recognized action whose exchange call *succeeds* but parses to a falsy
JSON body — concretely the empty object `{}` — is answered with HTTP 500
and the body `{"error": "Trade failed"}`, indistinguishable from a real
exchange failure. -/
theorem webhook_success_iff_truthy (hmac : String → String → String)
    (net : HttpRequest → HttpOutcome) (ak sk : Option String)
    (tr0 : Option Trader) (ts : Nat) (action symbol? : Option String)
    (quantity? : Option Int) :
    ((webhook hmac net ak sk tr0 ts action symbol? quantity?).status = 200
      ↔ pyTruthy (webhook hmac net ak sk tr0 ts action symbol? quantity?).result = true)
      ∧ (webhook hmacTag netEmptyObj none none (some testTrader) 5 (some "buy") none
            none).status = 500
      ∧ (webhook hmacTag netEmptyObj none none (some testTrader) 5 (some "buy") none
            none).body = Json.obj [("error", Json.str "Trade failed")]
      ∧ (webhook hmacTag netEmptyObj none none (some testTrader) 5 (some "buy") none
            none).result = some (Json.obj []) := by
  refine ⟨?_, rfl, rfl, rfl⟩
  cases tr0 with
  | some t => exact webhook_some_status_iff hmac net ak sk t ts action symbol? quantity?
  | none =>
      rw [webhook_none_trader]
      cases hinit : init_trader ak sk with
      | some t => exact webhook_some_status_iff hmac net ak sk t ts action symbol? quantity?
      | none => simp [webhook, hinit, pyTruthy]
